import Mathlib

set_option maxRecDepth 4000

/-!
Verification of `src/azure-cli/azure/cli/command_modules/sqlvm/_validators.py`.

The validators are shallowly embedded: the mutable argument namespace becomes
explicit arguments and return values, Python `None` becomes `Option`, raised
CLI errors become an error result type, and the remote fetches performed by
the multi-stage Azure AD validation become explicit inputs (the fetched
objects, or `none` when the underlying call raised).
-/

namespace SqlVmValidators

/-- The three user-facing error categories raised by the module
(`azure.cli.core.azclierror`). -/
inductive AzCliError
  | invalidArgumentValue (msg : String)
  | requiredArgumentMissing (msg : String)
  | mutuallyExclusiveArgument (msg : String)
deriving DecidableEq

/-- Result of a validator: the (possibly rewritten) namespace content, or a
raised CLI error. -/
inductive VResult (α : Type)
  | ok (a : α)
  | err (e : AzCliError)
deriving DecidableEq

/-- Python truthiness of an optional string: `None` and the empty string are
falsy, every other string is truthy. -/
def truthy : Option String → Bool
  | none => false
  | some s => !s.isEmpty

/-- Splits a character list on a separator character. Mirrors Python
`str.split` with a one-character separator: an empty input yields one empty
segment and separators at either end yield empty segments. -/
def splitOnChar (sep : Char) : List Char → List (List Char)
  | [] => [[]]
  | c :: cs =>
    if c = sep then [] :: splitOnChar sep cs
    else
      match splitOnChar sep cs with
      | [] => [[c]]
      | s :: ss => (c :: s) :: ss

/-- Joins segments with a slash separator; the inverse of splitting on a
slash. -/
def joinSlash : List (List Char) → List Char
  | [] => []
  | [s] => s
  | s :: t :: ts => s ++ '/' :: joinSlash (t :: ts)

/-- Modelled from the spec: the structured resource identifier of §3,
`{subscription, resourceGroup, namespace, type, name, [childType, childName]}`
(the `msrestazure.tools` helpers are external to this repository). A `none`
component drops that segment and every later one from the serialized form,
matching the builder the spec describes, which stops at the first absent
component. -/
structure RId where
  subscription : String
  resource_group : String
  ns : String
  ty : String
  name : Option String
  child_ty : Option String
  child_name : Option String
deriving DecidableEq

/-- Path segments of a structured resource identifier, in canonical order.
The leading empty segment produces the leading slash. -/
def RId.segments (r : RId) : List (List Char) :=
  [[], "subscriptions".data, r.subscription.data, "resourceGroups".data,
   r.resource_group.data, "providers".data, r.ns.data] ++
  (match r.name with
   | none => []
   | some n =>
     [r.ty.data, n.data] ++
     (match r.child_ty, r.child_name with
      | some ct, some cn => [ct.data, cn.data]
      | _, _ => []))

/-- Canonical string form of a structured resource identifier. -/
def RId.toStr (r : RId) : String := String.mk (joinSlash r.segments)

/-- Modelled from the spec: `msrestazure.tools.resource_id`, external to this
repository; builds the canonical string form from subscription, resource
group, provider namespace, type and name, with an optional child type/name
pair. -/
def resource_id (subscription resource_group ns ty : String)
    (name child_ty child_name : Option String) : String :=
  RId.toStr ⟨subscription, resource_group, ns, ty, name, child_ty, child_name⟩

/-- Modelled from the spec: `msrestazure.tools.is_valid_resource_id`,
external to this repository; accepts exactly the canonical string forms of
fully-qualified identifiers (with all of subscription, resource group,
provider namespace, type and name, and optionally one child type/name
pair). -/
def is_valid_resource_id (s : String) : Bool :=
  match splitOnChar '/' s.data with
  | [e, subs, sub, rgs, rg, provs, ns, ty, nm] =>
    e.isEmpty && subs == "subscriptions".data && rgs == "resourceGroups".data &&
    provs == "providers".data &&
    !sub.isEmpty && !rg.isEmpty && !ns.isEmpty && !ty.isEmpty && !nm.isEmpty
  | [e, subs, sub, rgs, rg, provs, ns, ty, nm, cty, cnm] =>
    e.isEmpty && subs == "subscriptions".data && rgs == "resourceGroups".data &&
    provs == "providers".data &&
    !sub.isEmpty && !rg.isEmpty && !ns.isEmpty && !ty.isEmpty && !nm.isEmpty &&
    !cty.isEmpty && !cnm.isEmpty
  | _ => false

/-- `is_valid_resource_id` applied to an optional value; a missing value is
not a valid resource id (Python short-circuits on the falsy argument). -/
def is_valid_resource_id_opt : Option String → Bool
  | none => false
  | some s => is_valid_resource_id s

/-- Embeds `validate_sqlvm_group`: a supplied value that is truthy and not a
valid resource id is replaced by a synthesized
`Microsoft.SqlVirtualMachine/sqlVirtualMachineGroups` identifier; anything
else is left unchanged. `subscription` stands for `get_subscription_id` and
`resource_group_name` for `namespace.resource_group_name`. -/
def validate_sqlvm_group (subscription resource_group_name : String)
    (group : Option String) : Option String :=
  match group with
  | none => none
  | some g =>
    if ¬ g.isEmpty ∧ ¬ is_valid_resource_id g then
      some (resource_id subscription resource_group_name "Microsoft.SqlVirtualMachine"
        "sqlVirtualMachineGroups" (some g) none none)
    else some g

/-- Embeds the per-element body of the loop in `validate_sqlvm_list`. -/
def normalize_sqlvm (subscription resource_group_name : String)
    (sqlvm : Option String) : Option String :=
  match sqlvm with
  | none => none
  | some g =>
    if ¬ g.isEmpty ∧ ¬ is_valid_resource_id g then
      some (resource_id subscription resource_group_name "Microsoft.SqlVirtualMachine"
        "sqlVirtualMachines" (some g) none none)
    else some g

/-- Embeds `validate_sqlvm_list`: the source loop assigns element `n` of the
same list it iterates; element writes never affect later reads, so the loop
is a pointwise map. -/
def validate_sqlvm_list (subscription resource_group_name : String)
    (vms : List (Option String)) : List (Option String) :=
  vms.map (normalize_sqlvm subscription resource_group_name)

/-- Embeds `validate_load_balancer`. Unlike the other normalizers there is no
presence guard on the value before `is_valid_resource_id`. -/
def validate_load_balancer (subscription resource_group_name : String)
    (lb : Option String) : Option String :=
  if ¬ is_valid_resource_id_opt lb then
    some (resource_id subscription resource_group_name "Microsoft.Network"
      "loadBalancers" lb none none)
  else lb

/-- Embeds `validate_public_ip_address`. -/
def validate_public_ip_address (subscription resource_group_name : String)
    (public_ip : Option String) : Option String :=
  match public_ip with
  | none => none
  | some p =>
    if ¬ p.isEmpty ∧ ¬ is_valid_resource_id p then
      some (resource_id subscription resource_group_name "Microsoft.Network"
        "publicIPAddresses" (some p) none none)
    else some p

/-- The `vnet and '/' in vnet` guard of `validate_subnet`: a supplied vnet
value containing a slash (an empty or missing value contains none). -/
def vnetHasSlash : Option String → Bool
  | some v => v.data.contains '/'
  | none => false

/-- Embeds `validate_subnet`: rejects a vnet value containing a slash, then
requires exactly one of subnet-as-id alone or subnet-name with vnet-name, and
synthesizes the `virtualNetworks/subnets` child identifier in the latter
case. Returns the new `subnet_resource_id` field. -/
def validate_subnet (subscription resource_group_name : String)
    (subnet vnet : Option String) : VResult (Option String) :=
  if vnetHasSlash vnet then
    .err (.invalidArgumentValue "incorrect usage: --subnet ID | --subnet NAME --vnet-name NAME")
  else
    let subnet_is_id := is_valid_resource_id_opt subnet
    if (subnet_is_id ∧ truthy vnet) ∨ (¬ subnet_is_id ∧ ¬ truthy vnet) then
      .err (.mutuallyExclusiveArgument "incorrect usage: --subnet ID | --subnet NAME --vnet-name NAME")
    else
      if ¬ subnet_is_id ∧ truthy vnet then
        .ok (some (resource_id subscription resource_group_name "Microsoft.Network"
          "virtualNetworks" vnet (some "subnets") subnet))
      else .ok subnet

/-- The assessment-related arguments of the namespace consumed by
`validate_assessment` and `validate_assessment_start_time_local`. -/
structure AssessmentNs where
  enable_assessment : Option Bool
  enable_assessment_schedule : Option Bool
  assessment_weekly_interval : Option Int
  assessment_monthly_occurrence : Option Int
  assessment_day_of_week : Option String
  assessment_start_time_local : Option String
deriving DecidableEq

/-- The `is_assessment_schedule_provided` flag of `validate_assessment`: any
of the four schedule fields is non-null. -/
def is_assessment_schedule_provided (ns : AssessmentNs) : Bool :=
  ns.assessment_weekly_interval.isSome || ns.assessment_monthly_occurrence.isSome ||
  ns.assessment_day_of_week.isSome || ns.assessment_start_time_local.isSome

/-- Embeds `validate_assessment`. The source never writes the namespace, so
success returns it unchanged. -/
def validate_assessment (ns : AssessmentNs) : VResult AssessmentNs :=
  if ns.enable_assessment_schedule = some false ∧ is_assessment_schedule_provided ns then
    .err (.invalidArgumentValue "Assessment schedule settings cannot be provided while enable-assessment-schedule is False")
  else if ns.enable_assessment = some false ∧ is_assessment_schedule_provided ns then
    .err (.invalidArgumentValue "Assessment schedule settings cannot be provided while enable-assessment is False")
  else if is_assessment_schedule_provided ns then
    if ns.assessment_weekly_interval.isSome ∧ ns.assessment_monthly_occurrence.isSome then
      .err (.mutuallyExclusiveArgument "Both assessment-weekly-interval and assessment-montly-occurrence cannot be provided at the same time for Assessment schedule")
    else if ns.assessment_weekly_interval = none ∧ ns.assessment_monthly_occurrence = none then
      .err (.requiredArgumentMissing "Either assessment-weekly-interval or assessment-montly-occurrence must be provided for Assessment schedule")
    else if ns.assessment_day_of_week = none then
      .err (.requiredArgumentMissing "assessment-day-of-week must be provided for Assessment schedule")
    else if ns.assessment_start_time_local = none then
      .err (.requiredArgumentMissing "assessment-start-time-local must be provided for Assessment schedule")
    else .ok ns
  else .ok ns

/-- CPython strptime directive `%H` (`2[0-3]|[0-1]\d|\d`): consume a one- or
two-digit hour, longest alternative first, and return the remainder. The
alternatives never need backtracking here because a two-digit match is always
followed by a non-colon digit in the one-digit reading. -/
def matchHour : List Char → Option (List Char)
  | c1 :: c2 :: rest =>
    if c1 = '2' ∧ '0' ≤ c2 ∧ c2 ≤ '3' then some rest
    else if (c1 = '0' ∨ c1 = '1') ∧ c2.isDigit then some rest
    else if c1.isDigit then some (c2 :: rest)
    else none
  | [c1] => if c1.isDigit then some [] else none
  | [] => none

/-- CPython strptime directive `%M` (`[0-5]\d|\d`). -/
def matchMinute : List Char → Option (List Char)
  | c1 :: c2 :: rest =>
    if '0' ≤ c1 ∧ c1 ≤ '5' ∧ c2.isDigit then some rest
    else if c1.isDigit then some (c2 :: rest)
    else none
  | [c1] => if c1.isDigit then some [] else none
  | [] => none

/-- Models `datetime.strptime(s, TIME_FORMAT)` for `TIME_FORMAT = %H:%M`:
hour, a literal colon and minute must consume the whole string (strptime
raises on unconverted trailing data). -/
def strptime_HM (s : String) : Bool :=
  match matchHour s.data with
  | some (':' :: rest) =>
    (match matchMinute rest with
     | some [] => true
     | _ => false)
  | _ => false

/-- Embeds `validate_assessment_start_time_local`. The `if
assessment_start_time_local:` guard skips the check for a falsy value, that
is for a missing or empty string. -/
def validate_assessment_start_time_local (v : Option String) : VResult (Option String) :=
  match v with
  | none => .ok none
  | some s =>
    if s.isEmpty then .ok (some s)
    else if strptime_HM s then .ok (some s)
    else .err (.invalidArgumentValue
      ("assessment-start-time-local input \x27" ++ s ++ "\x27 is not valid time. Valid example: 19:30"))

/-- Python whitespace stripped by `int(str)` around the literal. -/
def pyIsSpace (c : Char) : Bool :=
  c = ' ' || c = '\t' || c = '\n' || c = '\r' || c = '\x0b' || c = '\x0c'

/-- Accumulates decimal digits after the first one, allowing a single
underscore between two digits as Python `int` does. -/
def pyDigitsAux : Nat → List Char → Option Nat
  | acc, [] => some acc
  | acc, '_' :: rest =>
    match rest with
    | c :: rest' =>
      if c.isDigit then pyDigitsAux (acc * 10 + (c.toNat - 48)) rest' else none
    | [] => none
  | acc, c :: rest =>
    if c.isDigit then pyDigitsAux (acc * 10 + (c.toNat - 48)) rest else none

/-- Models Python `int(s)` on a string: surrounding whitespace stripped, an
optional sign, then a non-empty run of decimal digits with single
underscores allowed between digits; anything else raises `ValueError`,
modelled as `none`. -/
def pyInt (s : String) : Option Int :=
  let t := ((s.data.dropWhile pyIsSpace).reverse.dropWhile pyIsSpace).reverse
  match t with
  | '+' :: c :: rest =>
    if c.isDigit then (pyDigitsAux (c.toNat - 48) rest).map Int.ofNat else none
  | '-' :: c :: rest =>
    if c.isDigit then (pyDigitsAux (c.toNat - 48) rest).map (fun n => -(Int.ofNat n)) else none
  | c :: rest =>
    if c.isDigit then (pyDigitsAux (c.toNat - 48) rest).map Int.ofNat else none
  | [] => none

/-- The SQL VM resource fields used by the capability check. -/
structure Sqlvm where
  sql_image_offer : Option String
deriving DecidableEq

/-- Python `str(...)` interpolation of an optional string by `format`. -/
def pyStr : Option String → String
  | none => "None"
  | some s => s

/-- The unsupported version/platform message, interpolating the actual
descriptor value. -/
def unsupported_offer_error (offer : Option String) : String :=
  "Azure AD authentication requires SQL Server 2022 on Windows platform but the SQL Image Offer of this SQL VM is "
    ++ pyStr offer

/-- Embeds `_validate_azure_ad_authentication_supported_on_sqlvm`. The remote
get is passed in as `fetch`; `none` models the call raising, which the source
translates to the retrieval error. Splitting on `-` never yields an empty
list, so fewer than two segments means exactly one. -/
def validate_azure_ad_authentication_supported_on_sqlvm (fetch : Option Sqlvm) :
    VResult Unit :=
  match fetch with
  | none => .err (.invalidArgumentValue
      "Unable to validate Azure AD authentication due to retrieving SQL VM instance encountering an error")
  | some sqlvm =>
    match sqlvm.sql_image_offer with
    | none => .err (.invalidArgumentValue (unsupported_offer_error sqlvm.sql_image_offer))
    | some offer =>
      match (splitOnChar '-' offer.data).map String.mk with
      | version :: platform :: _ =>
        (match pyInt (String.mk (version.data.drop 3)) with
         | none => .err (.invalidArgumentValue (unsupported_offer_error sqlvm.sql_image_offer))
         | some int_version =>
           if int_version < 2022 ∨ ¬ "WS".data.isPrefixOf platform.data then
             .err (.invalidArgumentValue (unsupported_offer_error sqlvm.sql_image_offer))
           else .ok ())
      | _ => .err (.invalidArgumentValue (unsupported_offer_error sqlvm.sql_image_offer))

/-- A user-assigned managed identity entry on the VM, per the spec's identity
block `{clientId, principalId}`. -/
structure Umi where
  client_id : Option String
  principal_id : Option String
deriving DecidableEq

/-- The identity block of the fetched VM. A missing attribute and a null
attribute are collapsed into `none`, matching the source's
`hasattr`/`is None` double checks. -/
structure VmIdentity where
  principal_id : Option String
  user_assigned_identities : Option (List Umi)
deriving DecidableEq

/-- The compute VM resource fields used by the identity-attachment check. -/
structure Vm where
  identity : Option VmIdentity
deriving DecidableEq

def system_msi_error : String :=
  "Enable Azure AD authentication with system-assigned managed identity but the system-assgined managed identity is not enabled on this Azure VM"

def user_msi_error (client_id : String) : String :=
  "Enable Azure AD authentication with user-assigned managed identity " ++ client_id
    ++ ", but the managed identity is not attached to this Azure VM"

/-- Embeds `_validate_msi_valid_on_vm`. The remote get is passed in as
`fetch` (`none` models the call raising). With no requested client id the
system-assigned principal id is required and returned; otherwise the first
user-assigned identity with a matching client id yields its principal id. -/
def validate_msi_valid_on_vm (msi_client_id : Option String) (fetch : Option Vm) :
    VResult (Option String) :=
  match fetch with
  | none => .err (.invalidArgumentValue
      "Unable to validate Azure AD authentication due to retrieving the Azure VM instance encountering an error")
  | some vm =>
    match msi_client_id with
    | none =>
      match vm.identity with
      | none => .err (.invalidArgumentValue system_msi_error)
      | some ident =>
        match ident.principal_id with
        | none => .err (.invalidArgumentValue system_msi_error)
        | some pid => .ok (some pid)
    | some client_id =>
      match vm.identity with
      | none => .err (.invalidArgumentValue (user_msi_error client_id))
      | some ident =>
        match ident.user_assigned_identities with
        | none => .err (.invalidArgumentValue (user_msi_error client_id))
        | some umis =>
          match umis.find? (fun u => u.client_id == some client_id) with
          | some u => .ok u.principal_id
          | none => .err (.invalidArgumentValue (user_msi_error client_id))

def USER_READ_ALL : String := "User.Read.All"
def APPLICATION_READ_ALL : String := "Application.Read.All"
def GROUP_MEMBER_READ_ALL : String := "GroupMember.Read.All"

/-- A directory role record returned by the graph API, `{displayName}`. -/
structure DirectoryRole where
  displayName : String
deriving DecidableEq

/-- An app role assignment record returned by the graph API, `{appRoleId}`. -/
structure AppRoleAssignment where
  appRoleId : String
deriving DecidableEq

/-- Python `list.remove`: drops the first occurrence of `x`, raising
`ValueError` (modelled as `none`) when `x` is absent. -/
def pyRemove (l : List String) (x : String) : Option (List String) :=
  if x ∈ l then some (l.erase x) else none

/-- The outcome of `_validate_msi_with_enough_permission`: success, the
missing-roles `InvalidArgumentValueError`, or an uncaught Python `ValueError`
escaping from `missing_roles.remove`. -/
inductive PermResult
  | ok
  | invalidArgumentValue (msg : String)
  | pythonValueError
deriving DecidableEq

/-- Embeds the `for assignment in app_role_assignments` loop of
`_validate_msi_with_enough_permission`, including the early `break` once
`missing_roles` is empty. `uid`, `aid`, `gid` are the resolved
`app_role_id_map` values for the three required scopes. -/
def scanAppRoleAssignments (uid aid gid : String) :
    List String → List AppRoleAssignment → Option (List String)
  | missing, [] => some missing
  | missing, a :: rest =>
    match (if a.appRoleId = uid then pyRemove missing USER_READ_ALL
           else if a.appRoleId = aid then pyRemove missing APPLICATION_READ_ALL
           else if a.appRoleId = gid then pyRemove missing GROUP_MEMBER_READ_ALL
           else some missing) with
    | none => none
    | some missing' =>
      if missing'.length = 0 then some missing'
      else scanAppRoleAssignments uid aid gid missing' rest

/-- The shape of the `missing_roles` list during the assignment scan: each of
the three required scope names is present exactly when its flag is set, and
the fixed source order `USER_READ_ALL, APPLICATION_READ_ALL,
GROUP_MEMBER_READ_ALL` is preserved. -/
def missingOf (bU bA bG : Bool) : List String :=
  (if bU then [USER_READ_ALL] else []) ++ (if bA then [APPLICATION_READ_ALL] else [])
    ++ (if bG then [GROUP_MEMBER_READ_ALL] else [])

/-- Embeds `_validate_msi_with_enough_permission`, with the two fetched
collections passed in (`directory_roles` from the transitiveMemberOf call,
`app_role_assignments` from the appRoleAssignments call) and the resolved app
role ids `uid`, `aid`, `gid` (programmatically found values, with the
hardcoded constants as `setdefault` fallbacks). -/
def validate_msi_with_enough_permission (uid aid gid : String)
    (directory_roles : List DirectoryRole)
    (app_role_assignments : List AppRoleAssignment) : PermResult :=
  if directory_roles.any (fun role => role.displayName == "Directory Readers") then .ok
  else
    match scanAppRoleAssignments uid aid gid
        [USER_READ_ALL, APPLICATION_READ_ALL, GROUP_MEMBER_READ_ALL] app_role_assignments with
    | none => .pythonValueError
    | some missing_roles =>
      if missing_roles.length > 0 then
        .invalidArgumentValue
          ("The managed identity is lack of the following roles for Azure AD authentication: "
            ++ String.intercalate ", " missing_roles)
      else .ok

/-- One decoded JSON page of a graph response: the optional `value` list and
the optional `@odata.nextLink` continuation link. List items are kept
abstract as strings. -/
structure GraphPage where
  value : Option (List String)
  odata_nextLink : Option String
deriving DecidableEq

/-- One response of the modelled transport, per request issued by `_send`. -/
inductive GraphResponse
  | failure
  | emptyBody
  | page (p : GraphPage)
deriving DecidableEq

/-- What `_send` produces: a decoded value (a concatenated list, a single
object, or the absent value `None` for an empty body), or the
`InvalidArgumentValueError` raised when `send_raw_request` fails. -/
inductive SendResult
  | listResult (items : List String)
  | singleObject (p : GraphPage)
deriving DecidableEq

inductive SendOutcome
  | result (r : Option SendResult)
  | sendError
deriving DecidableEq

/-- Embeds the `while True` pagination loop of `_send`, also counting the
requests issued. Each loop iteration consumes the next modelled response;
running out of responses counts as the request failing. -/
def sendLoop (is_list_result : Bool) (list_result : List String) :
    List GraphResponse → SendOutcome × Nat
  | [] => (.sendError, 1)
  | resp :: rest =>
    match resp with
    | .failure => (.sendError, 1)
    | .emptyBody => (.result none, 1)
    | .page p =>
      let is_list' := is_list_result || p.value.isSome
      let list' := list_result ++ p.value.getD []
      match p.odata_nextLink with
      | some _ =>
        let (o, n) := sendLoop is_list' list' rest
        (o, n + 1)
      | none =>
        if is_list' then (.result (some (.listResult list')), 1)
        else (.result (some (.singleObject p)), 1)

/-- Embeds `_send`, faithfully to its indentation: the whole request and
pagination loop sits inside the `if body:` block, so a call whose `body` is
falsy (every GET issued by this module passes no body) falls through the
block and returns `None` without issuing a single request. The second
component counts requests issued. -/
def send (body : Option String) (responses : List GraphResponse) : SendOutcome × Nat :=
  if truthy body then sendLoop false [] responses
  else (.result none, 0)

/-- The namespace fields consumed by `validate_azure_ad_authentication`. -/
structure AadNamespace where
  enable_azure_ad_auth : Option Bool
  skip_msi_validation : Option Bool
  msi_client_id : Option String
  resource_group_name : String
  sql_virtual_machine_name : String
deriving DecidableEq

/-- The value bound to the `principal_id` parameter of
`_validate_msi_with_enough_permission`. Python is dynamically typed, so the
call site may bind either the whole namespace object (what the source does)
or a principal id string (what the spec describes). -/
inductive GraphPrincipalRef
  | namespaceObject (ns : AadNamespace)
  | principalId (pid : String)
deriving DecidableEq

def AZURE_PUBLIC_CLOUD_NAME : String := "AzureCloud"

/-- Embeds `validate_azure_ad_authentication`: the feature gate, the skip
gate, the public-cloud gate, then the three chained checks. The remote
fetches are passed in (`sqlvm_fetch`, `vm_fetch`), and the permission check
is abstracted as `perm_check` so that the argument the source passes to it
can be observed: the source calls
`_validate_msi_with_enough_permission(cmd.cli_ctx, namespace)`, binding the
namespace object itself to `principal_id` and discarding the principal id
returned by `_validate_msi_valid_on_vm`. `cloud_name` models
`cmd.ctx_cli.cloud.name`. -/
def validate_azure_ad_authentication (cloud_name : String) (ns : AadNamespace)
    (sqlvm_fetch : Option Sqlvm) (vm_fetch : Option Vm)
    (perm_check : GraphPrincipalRef → VResult Unit) : VResult Unit :=
  if ns.enable_azure_ad_auth = some false then
    .err (.invalidArgumentValue "Disable Azure AD authentication is not supported")
  else if ns.skip_msi_validation = some true then .ok ()
  else if cloud_name ≠ AZURE_PUBLIC_CLOUD_NAME then
    .err (.invalidArgumentValue ("Azure AD authentication is not supported in " ++ cloud_name))
  else
    match validate_azure_ad_authentication_supported_on_sqlvm sqlvm_fetch with
    | .err e => .err e
    | .ok _ =>
      match validate_msi_valid_on_vm ns.msi_client_id vm_fetch with
      | .err e => .err e
      | .ok _pid => perm_check (GraphPrincipalRef.namespaceObject ns)

theorem splitOnChar_ne_nil (sep : Char) (l : List Char) : splitOnChar sep l ≠ [] := by
  induction l with
  | nil => simp [splitOnChar]
  | cons c cs ih =>
    simp only [splitOnChar]
    by_cases h : c = sep
    · simp [h]
    · simp only [if_neg h]
      cases hs : splitOnChar sep cs with
      | nil => simp
      | cons s ss => simp

theorem splitOnChar_no_sep (sep : Char) (a : List Char) (ha : sep ∉ a) :
    splitOnChar sep a = [a] := by
  induction a with
  | nil => rfl
  | cons c cs ih =>
    have hc : ¬ c = sep := fun h => ha (h ▸ List.mem_cons_self c cs)
    have ha' : sep ∉ cs := fun h => ha (List.mem_cons_of_mem _ h)
    simp only [splitOnChar, if_neg hc, ih ha']

theorem splitOnChar_append_sep (sep : Char) (a b : List Char) (ha : sep ∉ a) :
    splitOnChar sep (a ++ sep :: b) = a :: splitOnChar sep b := by
  induction a with
  | nil => simp [splitOnChar]
  | cons c cs ih =>
    have hc : ¬ c = sep := fun h => ha (h ▸ List.mem_cons_self c cs)
    have ha' : sep ∉ cs := fun h => ha (List.mem_cons_of_mem _ h)
    simp only [List.cons_append, splitOnChar, if_neg hc]
    rw [show cs.append (sep :: b) = cs ++ sep :: b from rfl, ih ha']

theorem splitOnChar_joinSlash (segs : List (List Char)) (hne : segs ≠ [])
    (h : ∀ s ∈ segs, '/' ∉ s) :
    splitOnChar '/' (joinSlash segs) = segs := by
  induction segs with
  | nil => exact absurd rfl hne
  | cons s ss ih =>
    cases ss with
    | nil =>
      simp only [joinSlash]
      exact splitOnChar_no_sep '/' s (h s (List.mem_cons_self s []))
    | cons t ts =>
      have hs : '/' ∉ s := h s (List.mem_cons_self _ _)
      have h' : ∀ x ∈ t :: ts, '/' ∉ x := fun x hx => h x (List.mem_cons_of_mem _ hx)
      simp only [joinSlash, splitOnChar_append_sep '/' s _ hs,
        ih (by simp) h']

/-- C1: the claim asserts that every body-less GET issued through `_send`
actually sends the request and pages through the response, concatenating the
`value` entries. The code contradicts this: the whole request/pagination
loop is indented under `if body:`, so a body-less call (all three graph GETs
in this module) sends nothing and returns the absent value. The first
conjunct evaluates the embedded `_send` on a body-less GET against a
two-page role-assignment response: zero requests are issued and `None` comes
back. The second conjunct shows the very same loop does follow the
continuation link and concatenate both pages when a body makes the guard
truthy, locating the defect in the guard. -/
theorem c1_send_bodyless_get_never_sent :
    send none [.page ⟨some ["assignment1"], some "nextLink"⟩,
               .page ⟨some ["assignment2"], none⟩]
      = (.result none, 0) ∧
    send (some "x") [.page ⟨some ["assignment1"], some "nextLink"⟩,
                     .page ⟨some ["assignment2"], none⟩]
      = (.result (some (.listResult ["assignment1", "assignment2"])), 2) :=
  ⟨rfl, rfl⟩

/-- C2: the claim asserts that the permission check receives exactly the
principal id resolved by the identity stage. The code instead passes the
namespace object itself as `principal_id` and discards the resolved id. At a
fully concrete input the identity stage resolves the system-assigned
principal id `pid-123`, yet a probing permission check that succeeds exactly
on `principalId pid-123` is invoked with the namespace object and reports
its probe error. -/
theorem c2_permission_check_gets_namespace_not_principal :
    validate_msi_valid_on_vm none (some ⟨some ⟨some "pid-123", none⟩⟩)
      = .ok (some "pid-123") ∧
    validate_azure_ad_authentication "AzureCloud" ⟨none, none, none, "rg1", "vm1"⟩
        (some ⟨some "SQL2022-WS2022"⟩) (some ⟨some ⟨some "pid-123", none⟩⟩)
        (fun r => if r = .principalId "pid-123" then .ok () else .err (.invalidArgumentValue "probe"))
      = .err (.invalidArgumentValue "probe") ∧
    GraphPrincipalRef.namespaceObject ⟨none, none, none, "rg1", "vm1"⟩
      ≠ GraphPrincipalRef.principalId "pid-123" := by
  refine ⟨rfl, ?_, by decide⟩
  rfl

/-- C10: `validate_load_balancer` has no presence guard: a missing
load-balancer value (which is not a valid resource id) is still overwritten
with a synthesized identifier whose name component is null, while
`validate_sqlvm_group` and `validate_public_ip_address` leave a missing
value untouched. -/
theorem c10_load_balancer_missing_presence_guard (subscription resource_group_name : String) :
    validate_load_balancer subscription resource_group_name none
      = some (resource_id subscription resource_group_name "Microsoft.Network"
          "loadBalancers" none none none) ∧
    validate_load_balancer subscription resource_group_name none ≠ none ∧
    is_valid_resource_id_opt none = false ∧
    validate_sqlvm_group subscription resource_group_name none = none ∧
    validate_public_ip_address subscription resource_group_name none = none := by
  refine ⟨?_, ?_, rfl, rfl, rfl⟩
  · simp [validate_load_balancer, is_valid_resource_id_opt]
  · simp [validate_load_balancer, is_valid_resource_id_opt]

/-- C3: gate order of `validate_azure_ad_authentication`. An explicit
`enable_azure_ad_auth = False` raises the Invalid Argument Value error first,
regardless of the skip flag, the cloud and every later stage; otherwise
`skip_msi_validation = True` returns success regardless of the cloud and of
all remote stages (the quantification over `sqlvm_fetch`, `vm_fetch` and
`perm_check` shows no further stage or network call can influence the
result); otherwise a cloud other than the Azure public cloud raises an
Invalid Argument Value error naming the active cloud. -/
theorem c3_gate_order (cloud_name : String) (ns : AadNamespace)
    (sqlvm_fetch : Option Sqlvm) (vm_fetch : Option Vm)
    (perm_check : GraphPrincipalRef → VResult Unit) :
    (ns.enable_azure_ad_auth = some false →
      validate_azure_ad_authentication cloud_name ns sqlvm_fetch vm_fetch perm_check
        = .err (.invalidArgumentValue "Disable Azure AD authentication is not supported")) ∧
    (ns.enable_azure_ad_auth ≠ some false → ns.skip_msi_validation = some true →
      validate_azure_ad_authentication cloud_name ns sqlvm_fetch vm_fetch perm_check
        = .ok ()) ∧
    (ns.enable_azure_ad_auth ≠ some false → ns.skip_msi_validation ≠ some true →
      cloud_name ≠ AZURE_PUBLIC_CLOUD_NAME →
      validate_azure_ad_authentication cloud_name ns sqlvm_fetch vm_fetch perm_check
        = .err (.invalidArgumentValue
            ("Azure AD authentication is not supported in " ++ cloud_name))) := by
  refine ⟨fun h1 => ?_, fun h1 h2 => ?_, fun h1 h2 h3 => ?_⟩
  · simp [validate_azure_ad_authentication, h1]
  · simp [validate_azure_ad_authentication, h1, h2]
  · simp [validate_azure_ad_authentication, h1, h2, h3]

/-- Witness for C3: with the feature enabled and the skip flag set, the
check succeeds even though both fetches are failing and the permission check
would reject. -/
theorem c3_gate_order_witness :
    ((some true : Option Bool) ≠ some false) ∧
    validate_azure_ad_authentication "AzureCloud" ⟨some true, some true, none, "rg1", "vm1"⟩
        none none (fun _ => .err (.invalidArgumentValue "never reached")) = .ok () :=
  ⟨by decide,
   (c3_gate_order "AzureCloud" ⟨some true, some true, none, "rg1", "vm1"⟩
      none none (fun _ => .err (.invalidArgumentValue "never reached"))).2.1
     (by decide) rfl⟩

/-- C9: `validate_assessment_start_time_local` accepts every present value
that parses in 24-hour `%H:%M` format and raises an Invalid Argument Value
error quoting the offending literal for every present value that does not;
an absent value is accepted without any check. Presence follows the source's
truthiness guard (`if assessment_start_time_local:`), under which a missing
value is absent. The last two conjuncts check the claim's examples. -/
theorem c9_start_time_format (v : Option String) :
    (truthy v = false → validate_assessment_start_time_local v = .ok v) ∧
    (∀ s, v = some s → truthy v = true → strptime_HM s = true →
      validate_assessment_start_time_local v = .ok v) ∧
    (∀ s, v = some s → truthy v = true → strptime_HM s = false →
      validate_assessment_start_time_local v = .err (.invalidArgumentValue
        ("assessment-start-time-local input \x27" ++ s
          ++ "\x27 is not valid time. Valid example: 19:30"))) ∧
    strptime_HM "19:30" = true ∧ strptime_HM "7:30pm" = false := by
  refine ⟨fun h => ?_, ?_, ?_, by decide, by decide⟩
  · cases v with
    | none => rfl
    | some s =>
      simp only [truthy, Bool.not_eq_false'] at h
      simp [validate_assessment_start_time_local, h]
  · rintro s rfl ht hp
    simp only [truthy, Bool.not_eq_true'] at ht
    simp [validate_assessment_start_time_local, ht, hp]
  · rintro s rfl ht hp
    simp only [truthy, Bool.not_eq_true'] at ht
    simp [validate_assessment_start_time_local, ht, hp]

/-- Witness for C9: the claim's failing example raises the error quoting the
literal, and its passing example is accepted. -/
theorem c9_start_time_format_witness :
    truthy (some "7:30pm") = true ∧ strptime_HM "7:30pm" = false ∧
    validate_assessment_start_time_local (some "7:30pm")
      = .err (.invalidArgumentValue
          "assessment-start-time-local input \x277:30pm\x27 is not valid time. Valid example: 19:30") ∧
    validate_assessment_start_time_local (some "19:30") = .ok (some "19:30") :=
  ⟨by decide, by decide,
   (c9_start_time_format (some "7:30pm")).2.2.1 "7:30pm" rfl (by decide) (by decide),
   (c9_start_time_format (some "19:30")).2.1 "19:30" rfl (by decide) (by decide)⟩

/-- C6: `validate_assessment`. The schedule counts as provided exactly when
one of the four schedule fields is non-null; a provided schedule with either
enable flag explicitly `False` raises an Invalid Argument Value error; with
both flags not explicitly `False`, a provided schedule raises Mutually
Exclusive when both interval fields are set, Required Missing when neither
is, Required Missing when the day of week is null, and Required Missing when
the start time is null; and with no schedule field set no schedule check
fires and the namespace is returned unchanged. -/
theorem c6_assessment_schedule (ns : AssessmentNs) :
    (is_assessment_schedule_provided ns = true ↔
      (ns.assessment_weekly_interval ≠ none ∨ ns.assessment_monthly_occurrence ≠ none ∨
       ns.assessment_day_of_week ≠ none ∨ ns.assessment_start_time_local ≠ none)) ∧
    (is_assessment_schedule_provided ns = true →
      (ns.enable_assessment_schedule = some false ∨ ns.enable_assessment = some false) →
      ∃ msg, validate_assessment ns = .err (.invalidArgumentValue msg)) ∧
    (is_assessment_schedule_provided ns = true →
      ns.enable_assessment_schedule ≠ some false → ns.enable_assessment ≠ some false →
      (ns.assessment_weekly_interval ≠ none → ns.assessment_monthly_occurrence ≠ none →
        validate_assessment ns = .err (.mutuallyExclusiveArgument
          "Both assessment-weekly-interval and assessment-montly-occurrence cannot be provided at the same time for Assessment schedule")) ∧
      (ns.assessment_weekly_interval = none → ns.assessment_monthly_occurrence = none →
        validate_assessment ns = .err (.requiredArgumentMissing
          "Either assessment-weekly-interval or assessment-montly-occurrence must be provided for Assessment schedule")) ∧
      (¬ (ns.assessment_weekly_interval ≠ none ∧ ns.assessment_monthly_occurrence ≠ none) →
       ¬ (ns.assessment_weekly_interval = none ∧ ns.assessment_monthly_occurrence = none) →
       ns.assessment_day_of_week = none →
        validate_assessment ns = .err (.requiredArgumentMissing
          "assessment-day-of-week must be provided for Assessment schedule")) ∧
      (¬ (ns.assessment_weekly_interval ≠ none ∧ ns.assessment_monthly_occurrence ≠ none) →
       ¬ (ns.assessment_weekly_interval = none ∧ ns.assessment_monthly_occurrence = none) →
       ns.assessment_day_of_week ≠ none → ns.assessment_start_time_local = none →
        validate_assessment ns = .err (.requiredArgumentMissing
          "assessment-start-time-local must be provided for Assessment schedule"))) ∧
    (is_assessment_schedule_provided ns = false → validate_assessment ns = .ok ns) := by
  refine ⟨?_, fun hp hflags => ?_, fun hp h1 h2 => ⟨?_, ?_, ?_, ?_⟩, fun hnp => ?_⟩
  · simp [is_assessment_schedule_provided, Option.isSome_iff_ne_none]
    tauto
  · rcases hflags with hf | hf
    · exact ⟨"Assessment schedule settings cannot be provided while enable-assessment-schedule is False",
        by simp [validate_assessment, hf, hp]⟩
    · by_cases hs : ns.enable_assessment_schedule = some false
      · exact ⟨"Assessment schedule settings cannot be provided while enable-assessment-schedule is False",
          by simp [validate_assessment, hs, hp]⟩
      · exact ⟨"Assessment schedule settings cannot be provided while enable-assessment is False",
          by simp [validate_assessment, hs, hf, hp]⟩
  · intro hw hm
    have hws : ns.assessment_weekly_interval.isSome := Option.isSome_iff_ne_none.mpr hw
    have hms : ns.assessment_monthly_occurrence.isSome := Option.isSome_iff_ne_none.mpr hm
    simp [validate_assessment, h1, h2, hp, hws, hms]
  · intro hw hm
    simp [validate_assessment, h1, h2, hp, hw, hm]
  · intro hb hn hd
    by_cases hw : ns.assessment_weekly_interval = none <;>
      by_cases hm : ns.assessment_monthly_occurrence = none
    · exact absurd ⟨hw, hm⟩ hn
    · simp [validate_assessment, h1, h2, hp, hd, hw, hm, Option.isSome_iff_ne_none]
    · simp [validate_assessment, h1, h2, hp, hd, hw, hm, Option.isSome_iff_ne_none]
    · exact absurd ⟨hw, hm⟩ hb
  · intro hb hn hd hs
    by_cases hw : ns.assessment_weekly_interval = none <;>
      by_cases hm : ns.assessment_monthly_occurrence = none
    · exact absurd ⟨hw, hm⟩ hn
    · simp [validate_assessment, h1, h2, hp, hd, hs, hw, hm, Option.isSome_iff_ne_none]
    · simp [validate_assessment, h1, h2, hp, hd, hs, hw, hm, Option.isSome_iff_ne_none]
    · exact absurd ⟨hw, hm⟩ hb
  · simp [validate_assessment, hnp]

/-- Witness for C6: a schedule giving both interval fields raises the
Mutually Exclusive error. -/
theorem c6_assessment_schedule_witness :
    is_assessment_schedule_provided ⟨none, none, some 1, some 1, none, none⟩ = true ∧
    validate_assessment ⟨none, none, some 1, some 1, none, none⟩
      = .err (.mutuallyExclusiveArgument
          "Both assessment-weekly-interval and assessment-montly-occurrence cannot be provided at the same time for Assessment schedule") :=
  ⟨rfl,
   ((c6_assessment_schedule ⟨none, none, some 1, some 1, none, none⟩).2.2.1 rfl
      (by decide) (by decide)).1 (by decide) (by decide)⟩

/-- C5: once the SQL VM has been fetched, the capability check accepts the
`sql_image_offer` descriptor if and only if it is present, splitting it on
`-` yields at least two segments, the characters of the first segment after
its first three characters parse as an integer of at least 2022, and the
second segment starts with `WS`; and every error it raises is the one
Invalid Argument Value error interpolating the actual descriptor value. -/
theorem c5_capability_check (sqlvm : Sqlvm) :
    (validate_azure_ad_authentication_supported_on_sqlvm (some sqlvm) = .ok () ↔
      ∃ offer version platform rest,
        sqlvm.sql_image_offer = some offer ∧
        (splitOnChar '-' offer.data).map String.mk = version :: platform :: rest ∧
        (∃ y, pyInt (String.mk (version.data.drop 3)) = some y ∧ 2022 ≤ y) ∧
        "WS".data.isPrefixOf platform.data = true) ∧
    (∀ e, validate_azure_ad_authentication_supported_on_sqlvm (some sqlvm) = .err e →
      e = .invalidArgumentValue (unsupported_offer_error sqlvm.sql_image_offer)) := by
  obtain ⟨o⟩ := sqlvm
  cases o with
  | none =>
    refine ⟨⟨fun h => ?_, ?_⟩, fun e he => ?_⟩
    · simp [validate_azure_ad_authentication_supported_on_sqlvm] at h
    · rintro ⟨offer, v, p, r, hoff, -⟩
      exact Option.noConfusion hoff
    · simp only [validate_azure_ad_authentication_supported_on_sqlvm] at he
      cases he
      rfl
  | some offer =>
    cases hsplit : (splitOnChar '-' offer.data).map String.mk with
    | nil =>
      refine ⟨⟨fun h => ?_, ?_⟩, fun e he => ?_⟩
      · simp only [validate_azure_ad_authentication_supported_on_sqlvm, hsplit] at h
        exact VResult.noConfusion h
      · rintro ⟨offer', v, p, r, hoff, hsp, -⟩
        cases hoff
        rw [hsplit] at hsp
        exact List.noConfusion hsp
      · simp only [validate_azure_ad_authentication_supported_on_sqlvm, hsplit] at he
        cases he
        rfl
    | cons version rest1 =>
      cases rest1 with
      | nil =>
        refine ⟨⟨fun h => ?_, ?_⟩, fun e he => ?_⟩
        · simp only [validate_azure_ad_authentication_supported_on_sqlvm, hsplit] at h
          exact VResult.noConfusion h
        · rintro ⟨offer', v, p, r, hoff, hsp, -⟩
          cases hoff
          rw [hsplit] at hsp
          cases hsp
        · simp only [validate_azure_ad_authentication_supported_on_sqlvm, hsplit] at he
          cases he
          rfl
      | cons platform rest =>
        cases hint : pyInt (String.mk (version.data.drop 3)) with
        | none =>
          refine ⟨⟨fun h => ?_, ?_⟩, fun e he => ?_⟩
          · simp only [validate_azure_ad_authentication_supported_on_sqlvm, hsplit, hint] at h
            exact VResult.noConfusion h
          · rintro ⟨offer', v, p, r, hoff, hsp, ⟨y, hy, -⟩, -⟩
            cases hoff
            rw [hsplit] at hsp
            injection hsp with h1 h2
            subst h1
            rw [hint] at hy
            exact Option.noConfusion hy
          · simp only [validate_azure_ad_authentication_supported_on_sqlvm, hsplit, hint] at he
            cases he
            rfl
        | some y =>
          by_cases hcond : y < 2022 ∨ ¬ "WS".data.isPrefixOf platform.data
          · refine ⟨⟨fun h => ?_, ?_⟩, fun e he => ?_⟩
            · simp only [validate_azure_ad_authentication_supported_on_sqlvm, hsplit, hint,
                if_pos hcond] at h
              exact VResult.noConfusion h
            · rintro ⟨offer', v, p, r, hoff, hsp, ⟨y', hy', hge⟩, hws⟩
              cases hoff
              rw [hsplit] at hsp
              injection hsp with h1 h2
              injection h2 with h2 h3
              subst h1; subst h2
              rw [hint] at hy'
              injection hy' with hy'
              subst hy'
              rcases hcond with hlt | hnw
              · exact absurd hge (by omega)
              · exact absurd hws hnw
            · simp only [validate_azure_ad_authentication_supported_on_sqlvm, hsplit, hint,
                if_pos hcond] at he
              cases he
              rfl
          · refine ⟨⟨fun h => ?_, ?_⟩, fun e he => ?_⟩
            · push_neg at hcond
              exact ⟨offer, version, platform, rest, rfl, hsplit,
                ⟨y, hint, by omega⟩, by simpa using hcond.2⟩
            · intro h
              simp only [validate_azure_ad_authentication_supported_on_sqlvm, hsplit, hint,
                if_neg hcond]
            · simp only [validate_azure_ad_authentication_supported_on_sqlvm, hsplit, hint,
                if_neg hcond] at he
              exact VResult.noConfusion he

/-- Witness for C5: the canonical supported offer `SQL2022-WS2022` is
accepted, and a pre-2022 offer raises exactly the interpolated unsupported
error. -/
theorem c5_capability_check_witness :
    validate_azure_ad_authentication_supported_on_sqlvm (some ⟨some "SQL2022-WS2022"⟩)
      = .ok () ∧
    AzCliError.invalidArgumentValue
        "Azure AD authentication requires SQL Server 2022 on Windows platform but the SQL Image Offer of this SQL VM is SQL2019-WS2019"
      = .invalidArgumentValue (unsupported_offer_error (some "SQL2019-WS2019")) :=
  ⟨(c5_capability_check ⟨some "SQL2022-WS2022"⟩).1.mpr
     ⟨"SQL2022-WS2022", "SQL2022", "WS2022", [], rfl, by decide,
      ⟨2022, by decide, by omega⟩, by decide⟩,
   (c5_capability_check ⟨some "SQL2019-WS2019"⟩).2
     (.invalidArgumentValue
        "Azure AD authentication requires SQL Server 2022 on Windows platform but the SQL Image Offer of this SQL VM is SQL2019-WS2019")
     (by decide)⟩

theorem data_isEmpty_false {s : String} (h : s ≠ "") : s.data.isEmpty = false := by
  cases hs : s.data with
  | nil => exact absurd (String.ext (hs.trans rfl)) h
  | cons c cs => rfl

theorem is_valid_resource_id_no_slash (s : String) (h : ('/' : Char) ∉ s.data) :
    is_valid_resource_id s = false := by
  unfold is_valid_resource_id
  rw [splitOnChar_no_sep '/' s.data h]

/-- A synthesized parent-level identifier built from slash-free non-empty
components is a valid resource id. -/
theorem is_valid_resource_id_mk (sub rg ns ty nm : String)
    (hsub : ('/' : Char) ∉ sub.data) (hsub' : sub ≠ "")
    (hrg : ('/' : Char) ∉ rg.data) (hrg' : rg ≠ "")
    (hns : ('/' : Char) ∉ ns.data) (hns' : ns ≠ "")
    (hty : ('/' : Char) ∉ ty.data) (hty' : ty ≠ "")
    (hnm : ('/' : Char) ∉ nm.data) (hnm' : nm ≠ "") :
    is_valid_resource_id (resource_id sub rg ns ty (some nm) none none) = true := by
  unfold is_valid_resource_id resource_id RId.toStr
  rw [show (String.mk (joinSlash (RId.segments ⟨sub, rg, ns, ty, some nm, none, none⟩))).data
        = joinSlash [[], "subscriptions".data, sub.data, "resourceGroups".data, rg.data,
            "providers".data, ns.data, ty.data, nm.data] from rfl]
  rw [splitOnChar_joinSlash _ (by simp) ?_]
  · simp [data_isEmpty_false hsub', data_isEmpty_false hrg', data_isEmpty_false hns',
      data_isEmpty_false hty', data_isEmpty_false hnm']
  · intro x hx
    simp only [List.mem_cons, List.not_mem_nil, or_false] at hx
    rcases hx with rfl | rfl | rfl | rfl | rfl | rfl | rfl | rfl | rfl
    · exact List.not_mem_nil _
    · decide
    · exact hsub
    · decide
    · exact hrg
    · decide
    · exact hns
    · exact hty
    · exact hnm

/-- A synthesized child-level identifier built from slash-free non-empty
components is a valid resource id. -/
theorem is_valid_resource_id_mk_child (sub rg ns ty nm cty cnm : String)
    (hsub : ('/' : Char) ∉ sub.data) (hsub' : sub ≠ "")
    (hrg : ('/' : Char) ∉ rg.data) (hrg' : rg ≠ "")
    (hns : ('/' : Char) ∉ ns.data) (hns' : ns ≠ "")
    (hty : ('/' : Char) ∉ ty.data) (hty' : ty ≠ "")
    (hnm : ('/' : Char) ∉ nm.data) (hnm' : nm ≠ "")
    (hcty : ('/' : Char) ∉ cty.data) (hcty' : cty ≠ "")
    (hcnm : ('/' : Char) ∉ cnm.data) (hcnm' : cnm ≠ "") :
    is_valid_resource_id (resource_id sub rg ns ty (some nm) (some cty) (some cnm)) = true := by
  unfold is_valid_resource_id resource_id RId.toStr
  rw [show (String.mk (joinSlash
        (RId.segments ⟨sub, rg, ns, ty, some nm, some cty, some cnm⟩))).data
        = joinSlash [[], "subscriptions".data, sub.data, "resourceGroups".data, rg.data,
            "providers".data, ns.data, ty.data, nm.data, cty.data, cnm.data] from rfl]
  rw [splitOnChar_joinSlash _ (by simp) ?_]
  · simp [data_isEmpty_false hsub', data_isEmpty_false hrg', data_isEmpty_false hns',
      data_isEmpty_false hty', data_isEmpty_false hnm', data_isEmpty_false hcty',
      data_isEmpty_false hcnm']
  · intro x hx
    simp only [List.mem_cons, List.not_mem_nil, or_false] at hx
    rcases hx with rfl | rfl | rfl | rfl | rfl | rfl | rfl | rfl | rfl | rfl | rfl
    · exact List.not_mem_nil _
    · decide
    · exact hsub
    · decide
    · exact hrg
    · decide
    · exact hns
    · exact hty
    · exact hnm
    · exact hcty
    · exact hcnm

/-- C7: `validate_subnet`. A vnet value containing a slash raises the
Invalid Argument Value error regardless of the subnet value; otherwise the
Mutually Exclusive error is raised exactly when subnet is a valid resource
id and vnet is supplied, or subnet is not a valid resource id and vnet is
absent; in the passing name+name combination the subnet is replaced by the
synthesized `virtualNetworks/subnets` child identifier; and a full subnet id
with vnet absent is left unchanged. -/
theorem c7_subnet_validation (subscription resource_group_name : String)
    (subnet vnet : Option String) :
    (∀ v, vnet = some v → ('/' : Char) ∈ v.data →
      validate_subnet subscription resource_group_name subnet vnet
        = .err (.invalidArgumentValue
            "incorrect usage: --subnet ID | --subnet NAME --vnet-name NAME")) ∧
    (vnetHasSlash vnet = false →
      (validate_subnet subscription resource_group_name subnet vnet
          = .err (.mutuallyExclusiveArgument
              "incorrect usage: --subnet ID | --subnet NAME --vnet-name NAME") ↔
        ((is_valid_resource_id_opt subnet = true ∧ truthy vnet = true) ∨
         (is_valid_resource_id_opt subnet = false ∧ truthy vnet = false)))) ∧
    (∀ s v, subnet = some s → vnet = some v → vnetHasSlash vnet = false →
      is_valid_resource_id s = false → truthy vnet = true →
      validate_subnet subscription resource_group_name subnet vnet
        = .ok (some (resource_id subscription resource_group_name "Microsoft.Network"
            "virtualNetworks" (some v) (some "subnets") (some s)))) ∧
    (∀ s, subnet = some s → is_valid_resource_id s = true → truthy vnet = false →
      validate_subnet subscription resource_group_name subnet vnet = .ok subnet) := by
  refine ⟨?_, ?_, ?_, ?_⟩
  · rintro v rfl hv
    have hs : vnetHasSlash (some v) = true := by
      simp [vnetHasSlash, List.elem_iff]
      exact hv
    simp [validate_subnet, hs]
  · intro hns
    by_cases hid : is_valid_resource_id_opt subnet = true <;>
      by_cases ht : truthy vnet = true
    · simp [validate_subnet, hns, hid, ht]
    · simp only [Bool.not_eq_true] at ht
      simp [validate_subnet, hns, hid, ht]
    · simp only [Bool.not_eq_true] at hid
      simp [validate_subnet, hns, hid, ht]
    · simp only [Bool.not_eq_true] at hid ht
      simp [validate_subnet, hns, hid, ht]
  · rintro s v rfl rfl hns hid ht
    simp [validate_subnet, hns, is_valid_resource_id_opt, hid, ht]
  · rintro s rfl hid ht
    by_cases hns : vnetHasSlash vnet = true
    · cases vnet with
      | none => simp [vnetHasSlash] at hns
      | some v =>
        simp only [vnetHasSlash, List.elem_iff] at hns
        simp only [truthy, Bool.not_eq_false'] at ht
        rw [String.isEmpty_iff] at ht
        subst ht
        simp at hns
    · simp only [Bool.not_eq_true] at hns
      simp [validate_subnet, hns, is_valid_resource_id_opt, hid, ht]

/-- Witness for C7: a name+name pair synthesizes the child identifier, and
an id+name pair is rejected as mutually exclusive. -/
theorem c7_subnet_validation_witness :
    vnetHasSlash (some "vnet1") = false ∧
    validate_subnet "sub1" "rg1" (some "subnet1") (some "vnet1")
      = .ok (some "/subscriptions/sub1/resourceGroups/rg1/providers/Microsoft.Network/virtualNetworks/vnet1/subnets/subnet1") ∧
    validate_subnet "sub1" "rg1"
        (some "/subscriptions/sub1/resourceGroups/rg1/providers/Microsoft.Network/virtualNetworks/vnet1/subnets/subnet1")
        (some "vnet1")
      = .err (.mutuallyExclusiveArgument
          "incorrect usage: --subnet ID | --subnet NAME --vnet-name NAME") :=
  ⟨rfl,
   (c7_subnet_validation "sub1" "rg1" (some "subnet1") (some "vnet1")).2.2.1
     "subnet1" "vnet1" rfl rfl (by decide) (by decide) (by decide),
   ((c7_subnet_validation "sub1" "rg1"
       (some "/subscriptions/sub1/resourceGroups/rg1/providers/Microsoft.Network/virtualNetworks/vnet1/subnets/subnet1")
       (some "vnet1")).2.1 (by decide)).mpr (Or.inl ⟨by decide, by decide⟩)⟩

/-- C8: the resource normalizers. Given a slash-free non-empty ambient
subscription and resource group: (1) an input that is already a
fully-qualified resource identifier is left unchanged by every normalizer;
(2) a bare (slash-free, non-empty) name is replaced by an identifier built
from the subscription, the resource group and the field's fixed provider
namespace and type, and that identifier is itself fully qualified; (2b) the
subnet name/vnet name pair synthesizes the child identifier, itself fully
qualified; (3) each Option-valued normalizer is idempotent on valid ids and
bare names; (4) the list normalizer maps elementwise, preserving length,
order and index. -/
theorem c8_resource_normalizers (subscription resource_group_name : String)
    (hs1 : ('/' : Char) ∉ subscription.data) (hs2 : subscription ≠ "")
    (hr1 : ('/' : Char) ∉ resource_group_name.data) (hr2 : resource_group_name ≠ "") :
    (∀ x, is_valid_resource_id x = true →
      validate_sqlvm_group subscription resource_group_name (some x) = some x ∧
      normalize_sqlvm subscription resource_group_name (some x) = some x ∧
      validate_load_balancer subscription resource_group_name (some x) = some x ∧
      validate_public_ip_address subscription resource_group_name (some x) = some x ∧
      validate_subnet subscription resource_group_name (some x) none = .ok (some x)) ∧
    (∀ nm, ('/' : Char) ∉ nm.data → nm ≠ "" →
      validate_sqlvm_group subscription resource_group_name (some nm)
        = some (resource_id subscription resource_group_name "Microsoft.SqlVirtualMachine"
            "sqlVirtualMachineGroups" (some nm) none none) ∧
      normalize_sqlvm subscription resource_group_name (some nm)
        = some (resource_id subscription resource_group_name "Microsoft.SqlVirtualMachine"
            "sqlVirtualMachines" (some nm) none none) ∧
      validate_load_balancer subscription resource_group_name (some nm)
        = some (resource_id subscription resource_group_name "Microsoft.Network"
            "loadBalancers" (some nm) none none) ∧
      validate_public_ip_address subscription resource_group_name (some nm)
        = some (resource_id subscription resource_group_name "Microsoft.Network"
            "publicIPAddresses" (some nm) none none) ∧
      is_valid_resource_id (resource_id subscription resource_group_name
        "Microsoft.SqlVirtualMachine" "sqlVirtualMachineGroups" (some nm) none none) = true ∧
      is_valid_resource_id (resource_id subscription resource_group_name
        "Microsoft.SqlVirtualMachine" "sqlVirtualMachines" (some nm) none none) = true ∧
      is_valid_resource_id (resource_id subscription resource_group_name
        "Microsoft.Network" "loadBalancers" (some nm) none none) = true ∧
      is_valid_resource_id (resource_id subscription resource_group_name
        "Microsoft.Network" "publicIPAddresses" (some nm) none none) = true) ∧
    (∀ snm v, ('/' : Char) ∉ snm.data → snm ≠ "" → ('/' : Char) ∉ v.data → v ≠ "" →
      validate_subnet subscription resource_group_name (some snm) (some v)
        = .ok (some (resource_id subscription resource_group_name "Microsoft.Network"
            "virtualNetworks" (some v) (some "subnets") (some snm))) ∧
      is_valid_resource_id (resource_id subscription resource_group_name "Microsoft.Network"
        "virtualNetworks" (some v) (some "subnets") (some snm)) = true) ∧
    (∀ x, is_valid_resource_id x = true ∨ (('/' : Char) ∉ x.data ∧ x ≠ "") →
      validate_sqlvm_group subscription resource_group_name
          (validate_sqlvm_group subscription resource_group_name (some x))
        = validate_sqlvm_group subscription resource_group_name (some x) ∧
      normalize_sqlvm subscription resource_group_name
          (normalize_sqlvm subscription resource_group_name (some x))
        = normalize_sqlvm subscription resource_group_name (some x) ∧
      validate_load_balancer subscription resource_group_name
          (validate_load_balancer subscription resource_group_name (some x))
        = validate_load_balancer subscription resource_group_name (some x) ∧
      validate_public_ip_address subscription resource_group_name
          (validate_public_ip_address subscription resource_group_name (some x))
        = validate_public_ip_address subscription resource_group_name (some x)) ∧
    (∀ vms : List (Option String),
      validate_sqlvm_list subscription resource_group_name vms
        = vms.map (normalize_sqlvm subscription resource_group_name) ∧
      (validate_sqlvm_list subscription resource_group_name vms).length = vms.length ∧
      ∀ i, (validate_sqlvm_list subscription resource_group_name vms).get? i
        = (vms.get? i).map (normalize_sqlvm subscription resource_group_name)) := by
  have hEmp : ∀ s : String, s ≠ "" → s.isEmpty = false := by
    intro s h
    rw [Bool.eq_false_iff]
    intro he
    exact h ((String.isEmpty_iff s).mp he)
  refine ⟨?_, ?_, ?_, ?_, ?_⟩
  · intro x hx
    refine ⟨?_, ?_, ?_, ?_, ?_⟩ <;>
      simp [validate_sqlvm_group, normalize_sqlvm, validate_load_balancer,
        validate_public_ip_address, validate_subnet, is_valid_resource_id_opt,
        vnetHasSlash, truthy, hx]
  · intro nm h1 h2
    have hE := hEmp nm h2
    have hV := is_valid_resource_id_no_slash nm h1
    refine ⟨?_, ?_, ?_, ?_, ?_, ?_, ?_, ?_⟩
    · simp [validate_sqlvm_group, hE, hV]
    · simp [normalize_sqlvm, hE, hV]
    · simp [validate_load_balancer, is_valid_resource_id_opt, hV]
    · simp [validate_public_ip_address, hE, hV]
    · exact is_valid_resource_id_mk subscription resource_group_name _ _ nm
        hs1 hs2 hr1 hr2 (by decide) (by decide) (by decide) (by decide) h1 h2
    · exact is_valid_resource_id_mk subscription resource_group_name _ _ nm
        hs1 hs2 hr1 hr2 (by decide) (by decide) (by decide) (by decide) h1 h2
    · exact is_valid_resource_id_mk subscription resource_group_name _ _ nm
        hs1 hs2 hr1 hr2 (by decide) (by decide) (by decide) (by decide) h1 h2
    · exact is_valid_resource_id_mk subscription resource_group_name _ _ nm
        hs1 hs2 hr1 hr2 (by decide) (by decide) (by decide) (by decide) h1 h2
  · intro snm v a1 a2 a3 a4
    have hV := is_valid_resource_id_no_slash snm a1
    have hSlash : vnetHasSlash (some v) = false := by
      rw [Bool.eq_false_iff]
      intro hc
      exact a3 (List.elem_iff.mp hc)
    have hT : truthy (some v) = true := by
      simp [truthy, hEmp v a4]
    constructor
    · simp [validate_subnet, hSlash, is_valid_resource_id_opt, hV, hT]
    · exact is_valid_resource_id_mk_child subscription resource_group_name _ _ v _ snm
        hs1 hs2 hr1 hr2 (by decide) (by decide) (by decide) (by decide) a3 a4
        (by decide) (by decide) a1 a2
  · intro x hx
    rcases hx with hx | ⟨h1, h2⟩
    · have e1 : validate_sqlvm_group subscription resource_group_name (some x) = some x := by
        simp [validate_sqlvm_group, hx]
      have e2 : normalize_sqlvm subscription resource_group_name (some x) = some x := by
        simp [normalize_sqlvm, hx]
      have e3 : validate_load_balancer subscription resource_group_name (some x) = some x := by
        simp [validate_load_balancer, is_valid_resource_id_opt, hx]
      have e4 : validate_public_ip_address subscription resource_group_name (some x) = some x := by
        simp [validate_public_ip_address, hx]
      rw [e1, e2, e3, e4]
      exact ⟨e1, e2, e3, e4⟩
    · have hE := hEmp x h2
      have hV := is_valid_resource_id_no_slash x h1
      have g1 := is_valid_resource_id_mk subscription resource_group_name
        "Microsoft.SqlVirtualMachine" "sqlVirtualMachineGroups" x
        hs1 hs2 hr1 hr2 (by decide) (by decide) (by decide) (by decide) h1 h2
      have g2 := is_valid_resource_id_mk subscription resource_group_name
        "Microsoft.SqlVirtualMachine" "sqlVirtualMachines" x
        hs1 hs2 hr1 hr2 (by decide) (by decide) (by decide) (by decide) h1 h2
      have g3 := is_valid_resource_id_mk subscription resource_group_name
        "Microsoft.Network" "loadBalancers" x
        hs1 hs2 hr1 hr2 (by decide) (by decide) (by decide) (by decide) h1 h2
      have g4 := is_valid_resource_id_mk subscription resource_group_name
        "Microsoft.Network" "publicIPAddresses" x
        hs1 hs2 hr1 hr2 (by decide) (by decide) (by decide) (by decide) h1 h2

      refine ⟨?_, ?_, ?_, ?_⟩
      · have hin : validate_sqlvm_group subscription resource_group_name (some x)
            = some (resource_id subscription resource_group_name
                "Microsoft.SqlVirtualMachine" "sqlVirtualMachineGroups" (some x) none none) := by
          simp [validate_sqlvm_group, hE, hV]
        rw [hin]
        simp [validate_sqlvm_group, g1]
      · have hin : normalize_sqlvm subscription resource_group_name (some x)
            = some (resource_id subscription resource_group_name
                "Microsoft.SqlVirtualMachine" "sqlVirtualMachines" (some x) none none) := by
          simp [normalize_sqlvm, hE, hV]
        rw [hin]
        simp [normalize_sqlvm, g2]
      · have hin : validate_load_balancer subscription resource_group_name (some x)
            = some (resource_id subscription resource_group_name
                "Microsoft.Network" "loadBalancers" (some x) none none) := by
          simp [validate_load_balancer, is_valid_resource_id_opt, hV]
        rw [hin]
        simp [validate_load_balancer, is_valid_resource_id_opt, g3]
      · have hin : validate_public_ip_address subscription resource_group_name (some x)
            = some (resource_id subscription resource_group_name
                "Microsoft.Network" "publicIPAddresses" (some x) none none) := by
          simp [validate_public_ip_address, hE, hV]
        rw [hin]
        simp [validate_public_ip_address, g4]
  · intro vms
    refine ⟨rfl, by simp [validate_sqlvm_list], fun i => ?_⟩
    simp [validate_sqlvm_list, List.getElem?_map]

/-- Witness for C8: a bare load-balancer name is rewritten to the expected
fully-qualified identifier, which is itself accepted unchanged. -/
theorem c8_resource_normalizers_witness :
    (('/' : Char) ∉ "sub1".data ∧ "sub1" ≠ "" ∧ ('/' : Char) ∉ "rg1".data ∧ "rg1" ≠ ""
      ∧ ('/' : Char) ∉ "lb1".data ∧ "lb1" ≠ "") ∧
    validate_load_balancer "sub1" "rg1" (some "lb1")
      = some "/subscriptions/sub1/resourceGroups/rg1/providers/Microsoft.Network/loadBalancers/lb1" ∧
    validate_load_balancer "sub1" "rg1"
        (validate_load_balancer "sub1" "rg1" (some "lb1"))
      = validate_load_balancer "sub1" "rg1" (some "lb1") :=
  ⟨by decide,
   ((c8_resource_normalizers "sub1" "rg1" (by decide) (by decide) (by decide) (by decide)).2.1
      "lb1" (by decide) (by decide)).2.2.1,
   ((c8_resource_normalizers "sub1" "rg1" (by decide) (by decide) (by decide) (by decide)).2.2.2.1
      "lb1" (Or.inr ⟨by decide, by decide⟩)).2.2.1⟩

theorem missingOf_length_ne_zero {bU bA bG : Bool} (h : (bU || bA || bG) = true) :
    (missingOf bU bA bG).length ≠ 0 := by
  cases bU <;> cases bA <;> cases bG <;> simp [missingOf] at h ⊢

/-- One scan step on a head assignment whose id matches none of the three
required ids leaves `missing_roles` untouched; the matching heads remove
their scope. Main invariant: starting from the `missing_roles` shape
`missingOf bU bA bG`, with each required id occurring at most once among the
assignments (and not at all for an already-satisfied scope), the scan never
raises and ends with exactly the scopes whose ids never occur still
missing. -/
theorem scan_missingOf (uid aid gid : String) (hua : uid ≠ aid) (hug : uid ≠ gid)
    (hag : aid ≠ gid) :
    ∀ (l : List AppRoleAssignment) (bU bA bG : Bool),
      (bU || bA || bG) = true →
      ((l.map AppRoleAssignment.appRoleId).filter
        (fun i => i == uid || i == aid || i == gid)).Nodup →
      (bU = false → uid ∉ l.map AppRoleAssignment.appRoleId) →
      (bA = false → aid ∉ l.map AppRoleAssignment.appRoleId) →
      (bG = false → gid ∉ l.map AppRoleAssignment.appRoleId) →
      scanAppRoleAssignments uid aid gid (missingOf bU bA bG) l
        = some (missingOf
            (bU && !(decide (uid ∈ l.map AppRoleAssignment.appRoleId)))
            (bA && !(decide (aid ∈ l.map AppRoleAssignment.appRoleId)))
            (bG && !(decide (gid ∈ l.map AppRoleAssignment.appRoleId)))) := by
  intro l
  induction l with
  | nil =>
    intro bU bA bG hne hnd hU hA hG
    simp [scanAppRoleAssignments]
  | cons a l' ih =>
    intro bU bA bG hne hnd hU hA hG
    have hmap : (a :: l').map AppRoleAssignment.appRoleId
        = a.appRoleId :: l'.map AppRoleAssignment.appRoleId := rfl
    by_cases hu : a.appRoleId = uid
    · -- head matches the User.Read.All id
      have hbU : bU = true := by
        by_contra hb
        rw [Bool.not_eq_true] at hb
        apply hU hb
        rw [hmap, ← hu]
        exact List.mem_cons_self _ _
      subst hbU
      have hfc : ((a :: l').map AppRoleAssignment.appRoleId).filter
          (fun i => i == uid || i == aid || i == gid)
          = a.appRoleId :: (l'.map AppRoleAssignment.appRoleId).filter
              (fun i => i == uid || i == aid || i == gid) := by
        rw [hmap]
        exact List.filter_cons_of_pos (by simp [hu])
      rw [hfc] at hnd
      have hnotin : uid ∉ l'.map AppRoleAssignment.appRoleId := by
        intro hmem
        have : uid ∈ (l'.map AppRoleAssignment.appRoleId).filter
            (fun i => i == uid || i == aid || i == gid) :=
          List.mem_filter.mpr ⟨hmem, by simp⟩
        exact (List.nodup_cons.mp hnd).1 (hu ▸ this)
      have hrem : pyRemove (missingOf true bA bG) USER_READ_ALL
          = some (missingOf false bA bG) := by
        cases bA <;> cases bG <;> decide
      simp only [scanAppRoleAssignments, if_pos hu, hrem]
      by_cases hrest : (bA || bG) = true
      · rw [if_neg (missingOf_length_ne_zero
          (show (false || bA || bG) = true by revert hrest; cases bA <;> cases bG <;> decide))]
        rw [ih false bA bG
          (show (false || bA || bG) = true by revert hrest; cases bA <;> cases bG <;> decide)
          (List.nodup_cons.mp hnd).2
          (fun _ => hnotin)
          (fun hb => fun hmem => hA hb (hmap ▸ List.mem_cons_of_mem _ hmem))
          (fun hb => fun hmem => hG hb (hmap ▸ List.mem_cons_of_mem _ hmem))]
        rw [hmap, hu]
        simp [List.mem_cons, Ne.symm hua, Ne.symm hug]
      · have hA0 : bA = false := by
          cases bA
          · rfl
          · simp at hrest
        have hG0 : bG = false := by
          cases bG
          · rfl
          · simp at hrest
        subst hA0
        subst hG0
        rw [if_pos (by simp [missingOf])]
        have haid := hA rfl
        have hgid := hG rfl
        rw [hmap, hu] at haid hgid
        rw [hmap, hu]
        simp [List.mem_cons, haid, hgid]
    · by_cases ha : a.appRoleId = aid
      · -- head matches the Application.Read.All id
        have hbA : bA = true := by
          by_contra hb
          rw [Bool.not_eq_true] at hb
          apply hA hb
          rw [hmap, ← ha]
          exact List.mem_cons_self _ _
        subst hbA
        have hfc : ((a :: l').map AppRoleAssignment.appRoleId).filter
            (fun i => i == uid || i == aid || i == gid)
            = a.appRoleId :: (l'.map AppRoleAssignment.appRoleId).filter
                (fun i => i == uid || i == aid || i == gid) := by
          rw [hmap]
          exact List.filter_cons_of_pos (by simp [ha])
        rw [hfc] at hnd
        have hnotin : aid ∉ l'.map AppRoleAssignment.appRoleId := by
          intro hmem
          have : aid ∈ (l'.map AppRoleAssignment.appRoleId).filter
              (fun i => i == uid || i == aid || i == gid) :=
            List.mem_filter.mpr ⟨hmem, by simp⟩
          exact (List.nodup_cons.mp hnd).1 (ha ▸ this)
        have hrem : pyRemove (missingOf bU true bG) APPLICATION_READ_ALL
            = some (missingOf bU false bG) := by
          cases bU <;> cases bG <;> decide
        simp only [scanAppRoleAssignments, if_neg hu, if_pos ha, hrem]
        by_cases hrest : (bU || bG) = true
        · rw [if_neg (missingOf_length_ne_zero
            (show (bU || false || bG) = true by revert hrest; cases bU <;> cases bG <;> decide))]
          rw [ih bU false bG
            (show (bU || false || bG) = true by revert hrest; cases bU <;> cases bG <;> decide)
            (List.nodup_cons.mp hnd).2
            (fun hb => fun hmem => hU hb (hmap ▸ List.mem_cons_of_mem _ hmem))
            (fun _ => hnotin)
            (fun hb => fun hmem => hG hb (hmap ▸ List.mem_cons_of_mem _ hmem))]
          rw [hmap, ha]
          simp [List.mem_cons, hua, Ne.symm hag]
        · have hU0 : bU = false := by
            cases bU
            · rfl
            · simp at hrest
          have hG0 : bG = false := by
            cases bG
            · rfl
            · simp at hrest
          subst hU0
          subst hG0
          rw [if_pos (by simp [missingOf])]
          have huid := hU rfl
          have hgid := hG rfl
          rw [hmap, ha] at huid hgid
          rw [hmap, ha]
          simp [List.mem_cons, huid, hgid]
      · by_cases hg : a.appRoleId = gid
        · -- head matches the GroupMember.Read.All id
          have hbG : bG = true := by
            by_contra hb
            rw [Bool.not_eq_true] at hb
            apply hG hb
            rw [hmap, ← hg]
            exact List.mem_cons_self _ _
          subst hbG
          have hfc : ((a :: l').map AppRoleAssignment.appRoleId).filter
              (fun i => i == uid || i == aid || i == gid)
              = a.appRoleId :: (l'.map AppRoleAssignment.appRoleId).filter
                  (fun i => i == uid || i == aid || i == gid) := by
            rw [hmap]
            exact List.filter_cons_of_pos (by simp [hg])
          rw [hfc] at hnd
          have hnotin : gid ∉ l'.map AppRoleAssignment.appRoleId := by
            intro hmem
            have : gid ∈ (l'.map AppRoleAssignment.appRoleId).filter
                (fun i => i == uid || i == aid || i == gid) :=
              List.mem_filter.mpr ⟨hmem, by simp⟩
            exact (List.nodup_cons.mp hnd).1 (hg ▸ this)
          have hrem : pyRemove (missingOf bU bA true) GROUP_MEMBER_READ_ALL
              = some (missingOf bU bA false) := by
            cases bU <;> cases bA <;> decide
          simp only [scanAppRoleAssignments, if_neg hu, if_neg ha, if_pos hg, hrem]
          by_cases hrest : (bU || bA) = true
          · rw [if_neg (missingOf_length_ne_zero
              (show (bU || bA || false) = true by revert hrest; cases bU <;> cases bA <;> decide))]
            rw [ih bU bA false
              (show (bU || bA || false) = true by revert hrest; cases bU <;> cases bA <;> decide)
              (List.nodup_cons.mp hnd).2
              (fun hb => fun hmem => hU hb (hmap ▸ List.mem_cons_of_mem _ hmem))
              (fun hb => fun hmem => hA hb (hmap ▸ List.mem_cons_of_mem _ hmem))
              (fun _ => hnotin)]
            rw [hmap, hg]
            simp [List.mem_cons, hug, hag]
          · have hU0 : bU = false := by
              cases bU
              · rfl
              · simp at hrest
            have hA0 : bA = false := by
              cases bA
              · rfl
              · simp at hrest
            subst hU0
            subst hA0
            rw [if_pos (by simp [missingOf])]
            have huid := hU rfl
            have haid := hA rfl
            rw [hmap, hg] at huid haid
            rw [hmap, hg]
            simp [List.mem_cons, huid, haid]
        · -- head matches no required id
          have hfc : ((a :: l').map AppRoleAssignment.appRoleId).filter
              (fun i => i == uid || i == aid || i == gid)
              = (l'.map AppRoleAssignment.appRoleId).filter
                  (fun i => i == uid || i == aid || i == gid) := by
            rw [hmap]
            exact List.filter_cons_of_neg (by simp [hu, ha, hg])
          rw [hfc] at hnd
          simp only [scanAppRoleAssignments, if_neg hu, if_neg ha, if_neg hg]
          rw [if_neg (missingOf_length_ne_zero hne)]
          rw [ih bU bA bG hne hnd
            (fun hb => fun hmem => hU hb (hmap ▸ List.mem_cons_of_mem _ hmem))
            (fun hb => fun hmem => hA hb (hmap ▸ List.mem_cons_of_mem _ hmem))
            (fun hb => fun hmem => hG hb (hmap ▸ List.mem_cons_of_mem _ hmem))]
          have hu' : uid ≠ a.appRoleId := fun h => hu h.symm
          have ha' : aid ≠ a.appRoleId := fun h => ha h.symm
          have hg' : gid ≠ a.appRoleId := fun h => hg h.symm
          rw [hmap]
          simp [List.mem_cons, hu', ha', hg']

/-- Once the scan has emptied `missing_roles` within a prefix, the `break`
makes any remaining assignments irrelevant. -/
theorem scan_append_done (uid aid gid : String) :
    ∀ (pre : List AppRoleAssignment) (missing : List String)
      (rest : List AppRoleAssignment),
      missing ≠ [] →
      scanAppRoleAssignments uid aid gid missing pre = some [] →
      scanAppRoleAssignments uid aid gid missing (pre ++ rest) = some [] := by
  intro pre
  induction pre with
  | nil =>
    intro missing rest hne h
    simp [scanAppRoleAssignments] at h
    exact absurd h hne
  | cons a pre' ih =>
    intro missing rest hne h
    simp only [List.cons_append, scanAppRoleAssignments] at h ⊢
    cases hstep : (if a.appRoleId = uid then pyRemove missing USER_READ_ALL
        else if a.appRoleId = aid then pyRemove missing APPLICATION_READ_ALL
        else if a.appRoleId = gid then pyRemove missing GROUP_MEMBER_READ_ALL
        else some missing) with
    | none =>
      rw [hstep] at h
      exact Option.noConfusion h
    | some missing' =>
      rw [hstep] at h
      replace h : (if missing'.length = 0 then some missing'
          else scanAppRoleAssignments uid aid gid missing' pre') = some [] := h
      show (if missing'.length = 0 then some missing'
          else scanAppRoleAssignments uid aid gid missing' (pre' ++ rest)) = some []
      by_cases hlen : missing'.length = 0
      · rw [if_pos hlen] at h ⊢
        exact h
      · rw [if_neg hlen] at h ⊢
        refine ih missing' rest ?_ h
        intro he
        subst he
        exact hlen rfl

/-- C4 counterexample: the claim asserts that when assignments matching all
three required app-role ids are seen the check succeeds, and that missing
scopes after an exhausted scan yield the role-naming error. On a response
that carries matches for all three ids but repeats the first one before the
others are matched, `missing_roles.remove` is called for a scope already
removed and raises an uncaught Python ValueError: the check neither succeeds
nor raises the role-naming error. -/
theorem c4_missing_roles_counterexample :
    validate_msi_with_enough_permission "u" "a" "g" []
        [⟨"u"⟩, ⟨"u"⟩, ⟨"a"⟩, ⟨"g"⟩] = .pythonValueError ∧
    ("u" ∈ ([⟨"u"⟩, ⟨"u"⟩, ⟨"a"⟩, ⟨"g"⟩] : List AppRoleAssignment).map
        AppRoleAssignment.appRoleId ∧
     "a" ∈ ([⟨"u"⟩, ⟨"u"⟩, ⟨"a"⟩, ⟨"g"⟩] : List AppRoleAssignment).map
        AppRoleAssignment.appRoleId ∧
     "g" ∈ ([⟨"u"⟩, ⟨"u"⟩, ⟨"a"⟩, ⟨"g"⟩] : List AppRoleAssignment).map
        AppRoleAssignment.appRoleId) := by
  exact ⟨rfl, by decide⟩

/-- C4 (amended): with the three required app-role ids pairwise distinct and
no required id occurring twice among the scanned assignments, the check is
exactly as claimed: a fetched directory role named `Directory Readers`
succeeds without consulting the assignments; otherwise the still-missing
scopes are exactly those whose resolved id never occurs, the empty
missing-set succeeds, and a non-empty one raises the error naming exactly
the still-missing scopes in source order; moreover once a duplicate-free
prefix has matched all three ids the scan stops early, so any tail —
including one that would otherwise raise the duplicate-removal ValueError —
is never inspected and the check succeeds. -/
theorem c4_missing_roles_amended (uid aid gid : String)
    (hua : uid ≠ aid) (hug : uid ≠ gid) (hag : aid ≠ gid) :
    (∀ (roles : List DirectoryRole) (assignments : List AppRoleAssignment),
      ((assignments.map AppRoleAssignment.appRoleId).filter
        (fun i => i == uid || i == aid || i == gid)).Nodup →
      validate_msi_with_enough_permission uid aid gid roles assignments
        = (if roles.any (fun role => role.displayName == "Directory Readers") then .ok
           else
             (let ids := assignments.map AppRoleAssignment.appRoleId
              let missing := (if uid ∈ ids then [] else [USER_READ_ALL])
                ++ (if aid ∈ ids then [] else [APPLICATION_READ_ALL])
                ++ (if gid ∈ ids then [] else [GROUP_MEMBER_READ_ALL])
              if missing = [] then .ok
              else .invalidArgumentValue
                ("The managed identity is lack of the following roles for Azure AD authentication: "
                  ++ String.intercalate ", " missing)))) ∧
    (∀ (roles : List DirectoryRole) (pre rest : List AppRoleAssignment),
      ((pre.map AppRoleAssignment.appRoleId).filter
        (fun i => i == uid || i == aid || i == gid)).Nodup →
      uid ∈ pre.map AppRoleAssignment.appRoleId →
      aid ∈ pre.map AppRoleAssignment.appRoleId →
      gid ∈ pre.map AppRoleAssignment.appRoleId →
      validate_msi_with_enough_permission uid aid gid roles (pre ++ rest) = .ok) := by
  constructor
  · intro roles assignments hnd
    unfold validate_msi_with_enough_permission
    by_cases hdr : roles.any (fun role => role.displayName == "Directory Readers") = true
    · rw [if_pos hdr, if_pos hdr]
    · rw [if_neg hdr, if_neg hdr]
      have hscan : scanAppRoleAssignments uid aid gid
          [USER_READ_ALL, APPLICATION_READ_ALL, GROUP_MEMBER_READ_ALL] assignments
          = some (missingOf
              (true && !(decide (uid ∈ assignments.map AppRoleAssignment.appRoleId)))
              (true && !(decide (aid ∈ assignments.map AppRoleAssignment.appRoleId)))
              (true && !(decide (gid ∈ assignments.map AppRoleAssignment.appRoleId)))) :=
        scan_missingOf uid aid gid hua hug hag assignments true true true rfl hnd
          (fun h => Bool.noConfusion h) (fun h => Bool.noConfusion h)
          (fun h => Bool.noConfusion h)
      rw [hscan]
      by_cases h1 : uid ∈ assignments.map AppRoleAssignment.appRoleId <;>
        by_cases h2 : aid ∈ assignments.map AppRoleAssignment.appRoleId <;>
          by_cases h3 : gid ∈ assignments.map AppRoleAssignment.appRoleId <;>
            simp [missingOf, h1, h2, h3]
  · intro roles pre rest hnd m1 m2 m3
    unfold validate_msi_with_enough_permission
    by_cases hdr : roles.any (fun role => role.displayName == "Directory Readers") = true
    · rw [if_pos hdr]
    · rw [if_neg hdr]
      have hscan : scanAppRoleAssignments uid aid gid
          [USER_READ_ALL, APPLICATION_READ_ALL, GROUP_MEMBER_READ_ALL] pre
          = some (missingOf
              (true && !(decide (uid ∈ pre.map AppRoleAssignment.appRoleId)))
              (true && !(decide (aid ∈ pre.map AppRoleAssignment.appRoleId)))
              (true && !(decide (gid ∈ pre.map AppRoleAssignment.appRoleId)))) :=
        scan_missingOf uid aid gid hua hug hag pre true true true rfl hnd
          (fun h => Bool.noConfusion h) (fun h => Bool.noConfusion h)
          (fun h => Bool.noConfusion h)
      have hscan' : scanAppRoleAssignments uid aid gid
          [USER_READ_ALL, APPLICATION_READ_ALL, GROUP_MEMBER_READ_ALL] pre = some [] := by
        rw [hscan]
        simp [missingOf, m1, m2, m3]
      have hall := scan_append_done uid aid gid pre
        [USER_READ_ALL, APPLICATION_READ_ALL, GROUP_MEMBER_READ_ALL] rest
        (by simp) hscan'
      rw [hall]
      rfl

/-- Witness for C4 (amended): with distinct ids, a duplicate-free scan
missing only the Application scope raises the error naming exactly that
scope, and a prefix matching all three ids succeeds even when followed by a
duplicate that would otherwise crash the scan. -/
theorem c4_missing_roles_amended_witness :
    (("u" : String) ≠ "a" ∧ ("u" : String) ≠ "g" ∧ ("a" : String) ≠ "g") ∧
    validate_msi_with_enough_permission "u" "a" "g" [] [⟨"u"⟩, ⟨"x"⟩, ⟨"g"⟩]
      = .invalidArgumentValue
          "The managed identity is lack of the following roles for Azure AD authentication: Application.Read.All" ∧
    validate_msi_with_enough_permission "u" "a" "g" [] ([⟨"u"⟩, ⟨"a"⟩, ⟨"g"⟩] ++ [⟨"u"⟩])
      = .ok := by
  refine ⟨by decide, ?_, ?_⟩
  · rw [(c4_missing_roles_amended "u" "a" "g" (by decide) (by decide) (by decide)).1
      [] [⟨"u"⟩, ⟨"x"⟩, ⟨"g"⟩] (by decide)]
    rfl
  · exact (c4_missing_roles_amended "u" "a" "g" (by decide) (by decide) (by decide)).2
      [] [⟨"u"⟩, ⟨"a"⟩, ⟨"g"⟩] [⟨"u"⟩] (by decide) (by decide) (by decide) (by decide)

end SqlVmValidators
